import Mathlib

/-!
Verification of the EduHaven SFU signaling control plane
(`Server/SFU/mediaRouter.js` and `Server/SFU/sfuHandlers.js`).

The server keeps five registries (JavaScript `Map`s, which preserve
insertion order): `transports`, `producers`, `consumers`, `rooms` and
`routers`.  We embed them as association lists over `String` keys.  The
Socket.IO layer is embedded as a map from socket-room name to the list of
member socket ids; `socket.to(room).emit(e)` delivers `e` to every member
of `room` except the sender.  Every handler of `handleSFUOperations` is a
pure function from the registry state, the Socket.IO state and the event
payload to a new state together with the ordered list of emitted events.
-/

/-- Lookup in an association list, mirroring JavaScript `Map.get`. -/
def lookupA {α : Type} : List (String × α) → String → Option α
  | [], _ => none
  | (k, v) :: rest, key => if k = key then some v else lookupA rest key

/-- Update-or-append, mirroring JavaScript `Map.set`. -/
def setA {α : Type} : List (String × α) → String → α → List (String × α)
  | [], key, v => [(key, v)]
  | (k, w) :: rest, key, v =>
      if k = key then (k, v) :: rest else (k, w) :: setA rest key v

/-- Key removal, mirroring JavaScript `Map.delete`. -/
def delA {α : Type} (l : List (String × α)) (key : String) : List (String × α) :=
  l.filter (fun p => p.1 != key)

/-- A record of the `transports` map: `{transport, peerId, roomId, direction}`.
The `engineConnected` flag is the DTLS-connect state of the stored mediasoup
transport handle itself (the server code keeps no flag of its own); per the
media-engine adapter contract, `transport.connect` succeeds exactly once and
rejects every later call. -/
structure TransportRec where
  peerId : String
  roomId : String
  direction : String
  engineConnected : Bool
deriving Repr, DecidableEq

/-- A record of the `producers` map: `{producer, peerId, roomId, kind}`. -/
structure ProducerRec where
  peerId : String
  roomId : String
  kind : String
deriving Repr, DecidableEq

/-- A record of the `consumers` map: `{consumer, peerId, roomId, producerId}`.
`paused` is the state of the stored mediasoup consumer handle
(consumers are created paused; `resume`/`pause` flip it). -/
structure ConsumerRec where
  peerId : String
  roomId : String
  producerId : String
  paused : Bool
deriving Repr, DecidableEq

/-- A record of the `rooms` map: `{id, router, peers, createdAt}`; the member
set `peers` is a JavaScript `Set`, embedded as a duplicate-free list in
insertion order. -/
structure RoomRec where
  peers : List String
deriving Repr, DecidableEq

/-- The registry state of the `MediaRouter` singleton. `routers` keeps only
the keys of the `routers` map (the router handles themselves are opaque). -/
structure RouterState where
  transports : List (String × TransportRec)
  producers : List (String × ProducerRec)
  consumers : List (String × ConsumerRec)
  rooms : List (String × RoomRec)
  routers : List String
deriving Repr, DecidableEq

/-- `MediaRouter.getOrCreateRouter`: if `routers` already has the room id the
state is untouched; otherwise a fresh router is created and a room record
with an empty member set is installed. -/
def getOrCreateRouter (st : RouterState) (roomId : String) : RouterState :=
  if st.routers.contains roomId then st
  else
    { st with
        routers := st.routers ++ [roomId]
        rooms := setA st.rooms roomId { peers := [] } }

/-- `MediaRouter.getRoomProducers roomId excludePeerId`: the
`(id, peerId, kind)` triples of every producer of the room not owned by the
excluded peer, in table order. -/
def getRoomProducers (st : RouterState) (roomId excludePeerId : String) :
    List (String × String × String) :=
  (st.producers.filter
      (fun p => p.2.roomId == roomId && p.2.peerId != excludePeerId)).map
    (fun p => (p.1, p.2.peerId, p.2.kind))

/-- `MediaRouter.connectTransport`: look the transport up (error if absent)
and call `transport.connect` on the engine handle, which fails if it was
already connected. No `connected` flag of the server's own is consulted. -/
def connectTransport (st : RouterState) (transportId : String) :
    Except String RouterState :=
  match lookupA st.transports transportId with
  | none => Except.error ("Transport " ++ transportId ++ " not found")
  | some t =>
      if t.engineConnected then
        Except.error "connect already called"
      else
        Except.ok { st with
          transports :=
            setA st.transports transportId { t with engineConnected := true } }

/-- The data `MediaRouter.createProducer` produces: the updated state, the
new producer id, and the `newProducer` event payload it emits (taken from
the transport record, not from the request payload). -/
structure ProduceOut where
  st : RouterState
  newId : String
  emitPeerId : String
  emitRoomId : String
deriving Repr, DecidableEq

/-- `MediaRouter.createProducer`: look the transport up (error if absent) and
call `transport.produce`. The engine outcome is a parameter
(`Except.ok id` or `Except.error msg`): the server checks neither the
transport's direction, nor its connect state, nor a per-(peer, kind)
uniqueness. On success the producer is recorded under the transport's
`peerId`/`roomId`, the peer is added to the room's member set if the room
exists, and a `newProducer` event is emitted. -/
def createProducer (st : RouterState) (transportId kind : String)
    (engine : Except String String) : Except String ProduceOut :=
  match lookupA st.transports transportId with
  | none => Except.error ("Transport " ++ transportId ++ " not found")
  | some t =>
      match engine with
      | Except.error e => Except.error e
      | Except.ok pid =>
          let producers' :=
            setA st.producers pid
              { peerId := t.peerId, roomId := t.roomId, kind := kind }
          let rooms' :=
            match lookupA st.rooms t.roomId with
            | none => st.rooms
            | some room =>
                if room.peers.contains t.peerId then st.rooms
                else setA st.rooms t.roomId { peers := room.peers ++ [t.peerId] }
          Except.ok
            { st := { st with producers := producers', rooms := rooms' }
              newId := pid
              emitPeerId := t.peerId
              emitRoomId := t.roomId }

/-- `MediaRouter.closeProducer`: a missing producer id returns silently with
no change; otherwise the producer is removed and every consumer whose
`producerId` equals the closed id is closed and removed. -/
def closeProducer (st : RouterState) (producerId : String) : RouterState :=
  match lookupA st.producers producerId with
  | none => st
  | some _ =>
      { st with
          producers := delA st.producers producerId
          consumers := st.consumers.filter (fun c => c.2.producerId != producerId) }

/-- `MediaRouter.resumeConsumer`: look the consumer up by id only (error if
absent) and resume the engine handle. No ownership check. -/
def resumeConsumer (st : RouterState) (consumerId : String) :
    Except String RouterState :=
  match lookupA st.consumers consumerId with
  | none => Except.error ("Consumer " ++ consumerId ++ " not found")
  | some c =>
      Except.ok { st with
        consumers := setA st.consumers consumerId { c with paused := false } }

/-- `MediaRouter.pauseConsumer`: look the consumer up by id only (error if
absent) and pause the engine handle. No ownership check. -/
def pauseConsumer (st : RouterState) (consumerId : String) :
    Except String RouterState :=
  match lookupA st.consumers consumerId with
  | none => Except.error ("Consumer " ++ consumerId ++ " not found")
  | some c =>
      Except.ok { st with
        consumers := setA st.consumers consumerId { c with paused := true } }

/-- `MediaRouter.leavePeer peerId roomId`: close and drop the peer's
transports, close each of the peer's producers in the room through
`closeProducer`, drop the peer's consumers, remove the peer from the room's
member set and, if the set became empty, drop the room and its router. -/
def leavePeer (st : RouterState) (peerId roomId : String) : RouterState :=
  let st1 := { st with
    transports := st.transports.filter
      (fun t => !(t.2.peerId == peerId && t.2.roomId == roomId)) }
  let pids := (st1.producers.filter
      (fun p => p.2.peerId == peerId && p.2.roomId == roomId)).map (fun p => p.1)
  let st2 := pids.foldl closeProducer st1
  let st3 := { st2 with
    consumers := st2.consumers.filter
      (fun c => !(c.2.peerId == peerId && c.2.roomId == roomId)) }
  match lookupA st3.rooms roomId with
  | none => st3
  | some room =>
      let peers' := room.peers.filter (fun p => p != peerId)
      if peers'.isEmpty then
        { st3 with
            rooms := delA st3.rooms roomId
            routers := st3.routers.filter (fun r => r != roomId) }
      else
        { st3 with rooms := setA st3.rooms roomId { peers := peers' } }

/-- Whether `p` is in the member set of room `r`. -/
def memberOf (st : RouterState) (r p : String) : Bool :=
  match lookupA st.rooms r with
  | none => false
  | some room => room.peers.contains p

/-- The Socket.IO room table: socket-room name to member socket ids. -/
abbrev SioState := List (String × List String)

/-- The member list of a socket room (empty when the room does not exist). -/
def sioMembers (sio : SioState) (room : String) : List String :=
  (lookupA sio room).getD []

/-- `socket.join room`. -/
def sioJoin (sio : SioState) (s room : String) : SioState :=
  match lookupA sio room with
  | none => setA sio room [s]
  | some ms => if ms.contains s then sio else setA sio room (ms ++ [s])

/-- `socket.leave room`. -/
def sioLeave (sio : SioState) (s room : String) : SioState :=
  match lookupA sio room with
  | none => sio
  | some ms => setA sio room (ms.filter (fun x => x != s))

/-- An event emitted by the server, tagged with its destination socket. -/
inductive OutEvent where
  | videoRoomJoined (dst : String)
      (existingProducers : List (String × String × String))
  | newPeerJoined (dst peerId : String)
  | videoRoomLeft (dst roomId : String)
  | peerLeft (dst peerId : String)
  | transportConnected (dst transportId : String)
  | transportError (dst error details : String)
  | producerCreated (dst id kind : String)
  | producerError (dst error details : String)
  | newProducerAvailable (dst peerId producerId kind : String)
  | producerClosedFan (dst peerId producerId : String)
  | producerClosedReply (dst producerId : String)
  | consumerResumed (dst consumerId : String)
  | consumerPaused (dst consumerId : String)
  | consumerError (dst error details : String)
  | videoRoomError (dst error details : String)
deriving Repr, DecidableEq

/-- `socket.to(room).emit`: one event per member of the socket room other
than the sender, in member order. -/
def fanOut (sio : SioState) (sender room : String) (mk : String → OutEvent) :
    List OutEvent :=
  ((sioMembers sio room).filter (fun m => m != sender)).map mk

/-- The result of running one handler: the registry state, the Socket.IO
state and the events emitted, in emission order. -/
structure HandlerOut where
  st : RouterState
  sio : SioState
  out : List OutEvent
deriving DecidableEq

/-- The `join-video-room` handler: `socket.join`, get-or-create the router,
reply `video-room-joined` with the existing producers, and fan out
`new-peer-joined`. The peer is not added to the room's member set. -/
def joinVideoRoom (st : RouterState) (sio : SioState) (socketId roomId : String) :
    HandlerOut :=
  let vr := "video-" ++ roomId
  let sio1 := sioJoin sio socketId vr
  let st1 := getOrCreateRouter st roomId
  { st := st1
    sio := sio1
    out := OutEvent.videoRoomJoined socketId (getRoomProducers st1 roomId socketId) ::
      fanOut sio1 socketId vr (fun m => OutEvent.newPeerJoined m socketId) }

/-- The `leave-video-room` handler: `socket.leave`, `leavePeer`, fan out
`peer-left`, reply `video-room-left`. The handler has no membership
precondition and its body never throws, so it always replies success. -/
def leaveVideoRoom (st : RouterState) (sio : SioState) (socketId roomId : String) :
    HandlerOut :=
  let vr := "video-" ++ roomId
  let sio1 := sioLeave sio socketId vr
  let st1 := leavePeer st socketId roomId
  { st := st1
    sio := sio1
    out := fanOut sio1 socketId vr (fun m => OutEvent.peerLeft m socketId) ++
      [OutEvent.videoRoomLeft socketId roomId] }

/-- The `connect-transport` handler: on success reply `transport-connected`,
on any failure reply `transport-error` with the fixed error string
`Failed to connect transport` and the thrown message as details. -/
def connectTransportH (st : RouterState) (sio : SioState)
    (socketId transportId : String) : HandlerOut :=
  match connectTransport st transportId with
  | Except.ok st1 =>
      { st := st1, sio := sio
        out := [OutEvent.transportConnected socketId transportId] }
  | Except.error e =>
      { st := st, sio := sio
        out := [OutEvent.transportError socketId "Failed to connect transport" e] }

/-- Concatenation of the lists produced by `f` over `l`, in order. -/
def concatMapL {α β : Type} (f : α → List β) : List α → List β
  | [] => []
  | a :: rest => f a ++ concatMapL f rest

/-- The `create-producer` handler. `handleSFUOperations` also registers, once
per socket it was invoked for, a listener on the `MediaRouter`'s
`newProducer` emitter that re-broadcasts `new-producer-available` with
`socket.to`; `listeners` is the list of those sockets. On success the
emitter fires synchronously inside `createProducer` (so the listener
broadcasts come first), then the `producer-created` reply, then the
handler's own `socket.to` fan-out built from the payload's `roomId` and the
issuing socket. On failure, one `producer-error` with the fixed error
string `Failed to create producer`. -/
def createProducerH (st : RouterState) (sio : SioState) (listeners : List String)
    (socketId transportId kind roomId : String)
    (engine : Except String String) : HandlerOut :=
  match createProducer st transportId kind engine with
  | Except.error e =>
      { st := st, sio := sio
        out := [OutEvent.producerError socketId "Failed to create producer" e] }
  | Except.ok r =>
      { st := r.st
        sio := sio
        out :=
          concatMapL
            (fun l => fanOut sio l ("video-" ++ r.emitRoomId)
              (fun m => OutEvent.newProducerAvailable m r.emitPeerId r.newId kind))
            listeners ++
          [OutEvent.producerCreated socketId r.newId kind] ++
          fanOut sio socketId ("video-" ++ roomId)
            (fun m => OutEvent.newProducerAvailable m socketId r.newId kind) }

/-- The `close-producer` handler: `closeProducer` (which never throws), then
fan out `producer-closed {peerId, producerId}` to the socket room named by
the payload, then reply `producer-closed {producerId}` to the originator. -/
def closeProducerH (st : RouterState) (sio : SioState)
    (socketId producerId roomId : String) : HandlerOut :=
  { st := closeProducer st producerId
    sio := sio
    out := fanOut sio socketId ("video-" ++ roomId)
        (fun m => OutEvent.producerClosedFan m socketId producerId) ++
      [OutEvent.producerClosedReply socketId producerId] }

/-- The `resume-consumer` handler. -/
def resumeConsumerH (st : RouterState) (sio : SioState)
    (socketId consumerId : String) : HandlerOut :=
  match resumeConsumer st consumerId with
  | Except.ok st1 =>
      { st := st1, sio := sio
        out := [OutEvent.consumerResumed socketId consumerId] }
  | Except.error e =>
      { st := st, sio := sio
        out := [OutEvent.consumerError socketId "Failed to resume consumer" e] }

/-- The `pause-consumer` handler. -/
def pauseConsumerH (st : RouterState) (sio : SioState)
    (socketId consumerId : String) : HandlerOut :=
  match pauseConsumer st consumerId with
  | Except.ok st1 =>
      { st := st1, sio := sio
        out := [OutEvent.consumerPaused socketId consumerId] }
  | Except.error e =>
      { st := st, sio := sio
        out := [OutEvent.consumerError socketId "Failed to pause consumer" e] }

/-- The short machine code carried by an error event, if the event is one. -/
def errCode : OutEvent → Option String
  | OutEvent.transportError _ e _ => some e
  | OutEvent.producerError _ e _ => some e
  | OutEvent.consumerError _ e _ => some e
  | OutEvent.videoRoomError _ e _ => some e
  | _ => none

/-- The machine codes of all error events of an emission list, in order. -/
def errorCodes (out : List OutEvent) : List String :=
  out.filterMap errCode

/-- Whether the emission list contains a `producer-closed {peerId,
producerId}` fan-out event. -/
def hasProducerClosedFan (out : List OutEvent) : Bool :=
  out.any (fun e => match e with
    | OutEvent.producerClosedFan _ _ _ => true
    | _ => false)

/-- How many `new-producer-available` events of the list are addressed to
`dst`. -/
def countNewProdAvail (out : List OutEvent) (dst : String) : Nat :=
  (out.filter (fun e => match e with
    | OutEvent.newProducerAvailable d _ _ _ => d == dst
    | _ => false)).length

/-! ## Association-list lemmas -/

theorem lookupA_mem {α : Type} {l : List (String × α)} {k : String} {v : α}
    (h : lookupA l k = some v) : (k, v) ∈ l := by
  induction l with
  | nil => simp [lookupA] at h
  | cons a rest ih =>
      obtain ⟨ka, va⟩ := a
      by_cases hk : ka = k
      · subst hk
        simp [lookupA] at h
        subst h
        exact List.mem_cons_self _ _
      · simp [lookupA, hk] at h
        exact List.mem_cons_of_mem _ (ih h)

theorem lookupA_filter_some {α : Type} {l : List (String × α)}
    {p : String × α → Bool} {k : String} {v : α}
    (h : lookupA (l.filter p) k = some v) : p (k, v) = true := by
  have hm : (k, v) ∈ l.filter p := lookupA_mem h
  exact (List.mem_filter.mp hm).2

theorem lookupA_filter_of_pred {α : Type} {l : List (String × α)}
    {p : String × α → Bool} {k : String} {v : α}
    (h : lookupA l k = some v) (hp : p (k, v) = true) :
    lookupA (l.filter p) k = some v := by
  induction l with
  | nil => simp [lookupA] at h
  | cons a rest ih =>
      obtain ⟨ka, va⟩ := a
      by_cases hk : ka = k
      · subst hk
        simp [lookupA] at h
        subst h
        simp [List.filter_cons, hp, lookupA]
      · simp [lookupA, hk] at h
        by_cases hpa : p (ka, va) = true
        · simp [List.filter_cons, hpa, lookupA, hk]
          exact ih h
        · simp only [Bool.not_eq_true] at hpa
          simp [List.filter_cons, hpa]
          exact ih h

theorem lookupA_none_filter {α : Type} {l : List (String × α)} {k : String}
    (h : lookupA l k = none) : l.filter (fun p => p.1 != k) = l := by
  induction l with
  | nil => rfl
  | cons a rest ih =>
      obtain ⟨ka, va⟩ := a
      by_cases hk : ka = k
      · subst hk
        simp [lookupA] at h
      · simp [lookupA, hk] at h
        simp [List.filter_cons, hk, ih h]

/-- The `producers` table after `closeProducer` is exactly the old table
with every entry keyed by the closed id filtered out. -/
theorem closeProducer_producers (st : RouterState) (pid : String) :
    (closeProducer st pid).producers =
      st.producers.filter (fun p => p.1 != pid) := by
  unfold closeProducer
  cases h : lookupA st.producers pid with
  | none => simp [lookupA_none_filter h]
  | some v => simp [delA]

/-- Folding `closeProducer` over a list of ids filters out every entry keyed
by one of them. -/
theorem foldl_closeProducer_producers (pids : List String) (st : RouterState) :
    (pids.foldl closeProducer st).producers =
      st.producers.filter (fun p => !(pids.contains p.1)) := by
  induction pids generalizing st with
  | nil => simp
  | cons pid rest ih =>
      simp only [List.foldl_cons]
      rw [ih, closeProducer_producers, List.filter_filter]
      apply List.filter_congr
      intro a _
      show (!(rest.contains a.1) && !(a.1 == pid)) = !((pid :: rest).contains a.1)
      rw [List.contains_cons, Bool.not_or]
      exact Bool.and_comm _ _

theorem lookupA_delA_self {α : Type} (l : List (String × α)) (k : String) :
    lookupA (l.filter (fun p => p.1 != k)) k = none := by
  cases h : lookupA (l.filter (fun p => p.1 != k)) k with
  | none => rfl
  | some v =>
      have hp := lookupA_filter_some h
      simp at hp

/-! ## Claims C9 and C10 -/

/-- Claim C9: closing an existing producer through `closeProducer` removes
the producer from the producer table and closes and removes every consumer
whose `producerId` equals the closed producer's id, so no consumer record
referencing the closed producer remains, while consumers of other producers
are kept unchanged. -/
theorem closeProducer_removes_consumers (st : RouterState) (pid : String)
    (prec : ProducerRec) (h : lookupA st.producers pid = some prec) :
    lookupA (closeProducer st pid).producers pid = none ∧
    (∀ cid crec, lookupA (closeProducer st pid).consumers cid = some crec →
      crec.producerId ≠ pid) ∧
    (∀ cid crec, lookupA st.consumers cid = some crec → crec.producerId ≠ pid →
      lookupA (closeProducer st pid).consumers cid = some crec) := by
  refine ⟨?_, ?_, ?_⟩
  · rw [closeProducer_producers]
    exact lookupA_delA_self _ _
  · intro cid crec hc
    unfold closeProducer at hc
    rw [h] at hc
    simp only at hc
    have hp := lookupA_filter_some hc
    simpa using hp
  · intro cid crec hc hne
    unfold closeProducer
    rw [h]
    simp only
    exact lookupA_filter_of_pred hc (by simpa using hne)

def stC9 : RouterState :=
  { transports := []
    producers := [("prodA", { peerId := "p1", roomId := "A", kind := "video" }),
                  ("prodB", { peerId := "p2", roomId := "A", kind := "audio" })]
    consumers := [("c1", { peerId := "p2", roomId := "A", producerId := "prodA",
                           paused := true }),
                  ("c2", { peerId := "p1", roomId := "A", producerId := "prodB",
                           paused := false })]
    rooms := [("A", { peers := ["p1", "p2"] })]
    routers := ["A"] }

/-- Witness for C9 at a concrete state: closing `prodA` removes it, removes
the consumer `c1` that referenced it, and keeps the unrelated consumer
`c2`. -/
theorem closeProducer_removes_consumers_witness :
    lookupA stC9.producers "prodA" =
      some { peerId := "p1", roomId := "A", kind := "video" } ∧
    lookupA (closeProducer stC9 "prodA").producers "prodA" = none ∧
    lookupA (closeProducer stC9 "prodA").consumers "c2" =
      some { peerId := "p1", roomId := "A", producerId := "prodB",
             paused := false } :=
  ⟨by decide,
   (closeProducer_removes_consumers stC9 "prodA"
     { peerId := "p1", roomId := "A", kind := "video" } (by decide)).1,
   (closeProducer_removes_consumers stC9 "prodA"
     { peerId := "p1", roomId := "A", kind := "video" } (by decide)).2.2 "c2"
     { peerId := "p1", roomId := "A", producerId := "prodB", paused := false }
     (by decide) (by decide)⟩

/-- Claim C10: a `close-producer` event naming a producer id absent from the
producer table is a silent success: `closeProducer` leaves the whole state
unchanged, yet the handler still replies `producer-closed {producerId}` to
the originator and fans out `producer-closed {peerId, producerId}` to every
other member of the room's socket room. -/
theorem closeProducer_missing_silent (st : RouterState) (sio : SioState)
    (s pid rid : String) (h : lookupA st.producers pid = none) :
    closeProducer st pid = st ∧
    (closeProducerH st sio s pid rid).st = st ∧
    OutEvent.producerClosedReply s pid ∈ (closeProducerH st sio s pid rid).out ∧
    (∀ m, m ∈ sioMembers sio ("video-" ++ rid) → m ≠ s →
      OutEvent.producerClosedFan m s pid ∈ (closeProducerH st sio s pid rid).out) := by
  have hcp : closeProducer st pid = st := by
    unfold closeProducer
    rw [h]
  refine ⟨hcp, hcp, ?_, ?_⟩
  · unfold closeProducerH
    simp
  · intro m hm hne
    unfold closeProducerH
    simp only
    apply List.mem_append_left
    unfold fanOut
    exact List.mem_map_of_mem _
      (List.mem_filter.mpr ⟨hm, by simpa using hne⟩)

def stC10 : RouterState :=
  { transports := []
    producers := [("prodA", { peerId := "p1", roomId := "A", kind := "video" })]
    consumers := []
    rooms := [("A", { peers := ["p1"] })]
    routers := ["A"] }

def sioC10 : SioState := [("video-A", ["p1", "p2"])]

/-- Witness for C10 at a concrete state: closing the absent id `ghost`
changes nothing, yet `p1` gets the reply and the other member `p2` gets the
fan-out. -/
theorem closeProducer_missing_silent_witness :
    lookupA stC10.producers "ghost" = none ∧
    (closeProducerH stC10 sioC10 "p1" "ghost" "A").st = stC10 ∧
    OutEvent.producerClosedReply "p1" "ghost" ∈
      (closeProducerH stC10 sioC10 "p1" "ghost" "A").out ∧
    OutEvent.producerClosedFan "p2" "p1" "ghost" ∈
      (closeProducerH stC10 sioC10 "p1" "ghost" "A").out :=
  ⟨by decide,
   (closeProducer_missing_silent stC10 sioC10 "p1" "ghost" "A" (by decide)).2.1,
   (closeProducer_missing_silent stC10 sioC10 "p1" "ghost" "A" (by decide)).2.2.1,
   (closeProducer_missing_silent stC10 sioC10 "p1" "ghost" "A" (by decide)).2.2.2
     "p2" (by decide) (by decide)⟩

/-! ## Claim C1 -/

/-- The `producers` table after `leavePeer` is the old table with every
entry whose key `leavePeer` closed (the ids of the departing peer's
producers in the room) filtered out. -/
theorem leavePeer_producers_eq (st : RouterState) (peerId roomId : String) :
    (leavePeer st peerId roomId).producers =
      st.producers.filter (fun p =>
        !(((st.producers.filter
              (fun q => q.2.peerId == peerId && q.2.roomId == roomId)).map
            (fun q => q.1)).contains p.1)) := by
  unfold leavePeer
  simp only
  split
  · exact foldl_closeProducer_producers _ _
  · split
    · exact foldl_closeProducer_producers _ _
    · exact foldl_closeProducer_producers _ _

/-- No producer of the departing peer in the departed room survives
`leavePeer`. -/
theorem leavePeer_producers_matching_nil (st : RouterState) (peerId roomId : String) :
    (leavePeer st peerId roomId).producers.filter
      (fun p => p.2.peerId == peerId && p.2.roomId == roomId) = [] := by
  rw [leavePeer_producers_eq, List.filter_filter]
  apply List.filter_eq_nil_iff.mpr
  intro a ha hcontra
  simp only [Bool.and_eq_true, Bool.not_eq_true'] at hcontra
  obtain ⟨hmatch, hnc⟩ := hcontra
  have htrue : ((st.producers.filter
      (fun q => q.2.peerId == peerId && q.2.roomId == roomId)).map
        (fun q => q.1)).contains a.1 = true :=
    List.elem_eq_true_of_mem (List.mem_map_of_mem _
      (List.mem_filter.mpr ⟨ha, by simp [Bool.and_eq_true, hmatch.1, hmatch.2]⟩))
  rw [htrue] at hnc
  exact absurd hnc (by decide)

/-- Claim C1 (amended): on `leave-video-room` the server removes from the
producer table every producer owned by the departing peer in that room and
fans out one `peer-left {peerId}` to each remaining member of the socket
room, but it emits no `producer-closed {peerId, producerId}` fan-out at
all: closures performed during leave are not advertised. -/
theorem leave_removes_producers_no_fanout (st : RouterState) (sio : SioState)
    (peerId roomId : String) :
    (leaveVideoRoom st sio peerId roomId).st.producers.filter
      (fun p => p.2.peerId == peerId && p.2.roomId == roomId) = [] ∧
    hasProducerClosedFan (leaveVideoRoom st sio peerId roomId).out = false ∧
    (∀ m, m ∈ sioMembers (leaveVideoRoom st sio peerId roomId).sio
        ("video-" ++ roomId) → m ≠ peerId →
      OutEvent.peerLeft m peerId ∈ (leaveVideoRoom st sio peerId roomId).out) := by
  refine ⟨leavePeer_producers_matching_nil st peerId roomId, ?_, ?_⟩
  · unfold leaveVideoRoom hasProducerClosedFan fanOut
    simp only [List.any_append, List.any_map, List.any_eq_false, Bool.or_eq_false_iff]
    constructor
    · intro x hx
      obtain ⟨m, hm, rfl⟩ := List.mem_map.mp hx
      exact Bool.false_ne_true
    · intro x hx
      simp only [List.mem_singleton] at hx
      subst hx
      exact Bool.false_ne_true
  · intro m hm hne
    unfold leaveVideoRoom at hm ⊢
    simp only at hm ⊢
    apply List.mem_append_left
    unfold fanOut
    exact List.mem_map_of_mem _
      (List.mem_filter.mpr ⟨hm, by simpa using hne⟩)

def stC1 : RouterState :=
  { transports := [("t2s", { peerId := "p2", roomId := "A", direction := "send",
                             engineConnected := true })]
    producers := [("prod2", { peerId := "p2", roomId := "A", kind := "video" })]
    consumers := []
    rooms := [("A", { peers := ["p2"] })]
    routers := ["A"] }

def sioC1 : SioState := [("video-A", ["p1", "p2", "p3"])]

/-- Counterexample to claim C1 as stated: in a room whose socket room holds
`p1`, `p2`, `p3`, with `p2` owning producer `prod2`, the `leave-video-room`
handler for `p2` removes `prod2` from the producer table and fans out
`peer-left`, but delivers no `producer-closed {peerId, producerId}` event to
`p1` (nor to anyone). -/
theorem leave_producer_closed_cex :
    lookupA (leaveVideoRoom stC1 sioC1 "p2" "A").st.producers "prod2" = none ∧
    OutEvent.peerLeft "p1" "p2" ∈ (leaveVideoRoom stC1 sioC1 "p2" "A").out ∧
    OutEvent.producerClosedFan "p1" "p2" "prod2" ∉
      (leaveVideoRoom stC1 sioC1 "p2" "A").out ∧
    hasProducerClosedFan (leaveVideoRoom stC1 sioC1 "p2" "A").out = false := by
  decide

/-! ## More association-list lemmas -/

theorem lookupA_setA_self {α : Type} (l : List (String × α)) (k : String) (v : α) :
    lookupA (setA l k v) k = some v := by
  induction l with
  | nil => simp [setA, lookupA]
  | cons a rest ih =>
      obtain ⟨ka, va⟩ := a
      by_cases hk : ka = k
      · subst hk
        simp [setA, lookupA]
      · simp [setA, hk, lookupA, ih]

theorem lookupA_setA_ne {α : Type} (l : List (String × α)) (k k' : String) (v : α)
    (h : k' ≠ k) : lookupA (setA l k v) k' = lookupA l k' := by
  induction l with
  | nil => simp [setA, lookupA, Ne.symm h]
  | cons a rest ih =>
      obtain ⟨ka, va⟩ := a
      by_cases hk : ka = k
      · subst hk
        simp [setA, lookupA, Ne.symm h]
      · simp [setA, hk, lookupA, ih]

theorem errorCodes_peerLeft_map (l : List String) (p : String) :
    errorCodes (l.map (fun m => OutEvent.peerLeft m p)) = [] := by
  induction l with
  | nil => rfl
  | cons a rest ih =>
      simp [errorCodes, List.filterMap_cons, errCode, ih]

/-! ## Claim C7 -/

/-- Claim C7 (amended): `leave-video-room` always replies
`video-room-left {roomId}` and never emits any error event, whether or not
the peer is (still) a member of the room; in particular a second
`leave-video-room` for the same room succeeds again with the same reply
instead of returning a `not-joined` error (no such machine code exists in
the server). -/
theorem leave_always_succeeds (st : RouterState) (sio : SioState) (s r : String) :
    OutEvent.videoRoomLeft s r ∈ (leaveVideoRoom st sio s r).out ∧
    errorCodes (leaveVideoRoom st sio s r).out = [] := by
  constructor
  · unfold leaveVideoRoom
    simp only
    exact List.mem_append_right _ (List.mem_singleton.mpr rfl)
  · unfold leaveVideoRoom fanOut
    simp only
    rw [errorCodes, List.filterMap_append]
    rw [show List.filterMap errCode
        (((sioMembers (sioLeave sio s ("video-" ++ r)) ("video-" ++ r)).filter
          (fun m => m != s)).map (fun m => OutEvent.peerLeft m s)) =
        errorCodes (((sioMembers (sioLeave sio s ("video-" ++ r)) ("video-" ++ r)).filter
          (fun m => m != s)).map (fun m => OutEvent.peerLeft m s)) from rfl]
    rw [errorCodes_peerLeft_map]
    rfl

def stC7 : RouterState :=
  { transports := []
    producers := []
    consumers := []
    rooms := [("A", { peers := ["p2"] })]
    routers := ["A"] }

def sioC7 : SioState := [("video-A", ["p1", "p2"])]

/-- Counterexample to claim C7 as stated: after `p2`'s first
`leave-video-room {roomId: A}` the room is gone (so `p2` is certainly no
longer a member), yet the second `leave-video-room` from `p2` emits no error
event at all and replies `video-room-left {A}` again, rather than returning
`not-joined`. -/
theorem leave_twice_cex :
    lookupA (leaveVideoRoom stC7 sioC7 "p2" "A").st.rooms "A" = none ∧
    OutEvent.videoRoomLeft "p2" "A" ∈
      (leaveVideoRoom (leaveVideoRoom stC7 sioC7 "p2" "A").st
        (leaveVideoRoom stC7 sioC7 "p2" "A").sio "p2" "A").out ∧
    errorCodes (leaveVideoRoom (leaveVideoRoom stC7 sioC7 "p2" "A").st
        (leaveVideoRoom stC7 sioC7 "p2" "A").sio "p2" "A").out = [] := by
  decide

/-! ## Claim C2 -/

def stC2 : RouterState :=
  { transports := [("t1", { peerId := "p1", roomId := "A", direction := "send",
                            engineConnected := true })]
    producers := []
    consumers := []
    rooms := [("A", { peers := [] })]
    routers := ["A"] }

def sioC2 : SioState := [("video-A", ["p1", "p2"])]

/-- Claim C2 is violated by the code: `handleSFUOperations` registers one
`newProducer` listener on the shared `MediaRouter` emitter per socket, and
each listener re-broadcasts `new-producer-available` with `socket.to`, which
excludes that listener's socket but not the producing peer. With the two
sockets `p1` and `p2` registered in room `A`, a successful `create-producer`
by `p1` delivers `new-producer-available` twice to the other member `p2`
(once from `p1`'s listener and once from the handler's own fan-out) and once
to the originator `p1` itself (from `p2`'s listener), contradicting
exactly-once delivery and originator exclusion. -/
theorem create_producer_fanout_duplicates :
    countNewProdAvail (createProducerH stC2 sioC2 ["p1", "p2"] "p1" "t1"
      "video" "A" (Except.ok "prodX")).out "p2" = 2 ∧
    countNewProdAvail (createProducerH stC2 sioC2 ["p1", "p2"] "p1" "t1"
      "video" "A" (Except.ok "prodX")).out "p1" = 1 := by
  decide

/-! ## Claim C3 -/

/-- Claim C3 (amended): a successful `join-video-room` replies
`video-room-joined` but never adds the joining peer to any room's member set
(for every room the member set either is unchanged or is the fresh empty set
installed by `getOrCreateRouter`); a peer enters the member set only through
`createProducer`, so a live room may have an empty member set. -/
theorem join_does_not_add_member (st : RouterState) (sio : SioState)
    (s r r' : String) :
    (memberOf (joinVideoRoom st sio s r).st r' s = false ∨
      memberOf (joinVideoRoom st sio s r).st r' s = memberOf st r' s) ∧
    OutEvent.videoRoomJoined s (getRoomProducers (getOrCreateRouter st r) r s) ∈
      (joinVideoRoom st sio s r).out := by
  constructor
  · have hst : (joinVideoRoom st sio s r).st = getOrCreateRouter st r := rfl
    rw [hst]
    unfold getOrCreateRouter
    by_cases hc : st.routers.contains r
    · rw [if_pos hc]
      right
      rfl
    · rw [if_neg hc]
      by_cases hr : r' = r
      · subst hr
        left
        unfold memberOf
        simp only
        rw [lookupA_setA_self]
        rfl
      · right
        unfold memberOf
        simp only
        rw [lookupA_setA_ne _ _ _ _ hr]
  · unfold joinVideoRoom
    simp only
    exact List.mem_cons_self _ _

def stC3 : RouterState :=
  { transports := [], producers := [], consumers := [], rooms := [], routers := [] }

/-- Counterexample to claim C3 as stated: starting from the empty state,
`p1`'s `join-video-room {roomId: A}` succeeds (the `video-room-joined` reply
is emitted) and the room record for `A` now exists, yet its member set is
empty and `p1` is not in it — also refuting that a live room always has a
non-empty member set. -/
theorem join_member_set_cex :
    OutEvent.videoRoomJoined "p1" [] ∈ (joinVideoRoom stC3 [] "p1" "A").out ∧
    lookupA (joinVideoRoom stC3 [] "p1" "A").st.rooms "A" = some { peers := [] } ∧
    memberOf (joinVideoRoom stC3 [] "p1" "A").st "A" "p1" = false := by
  decide

/-! ## Claim C4 -/

/-- Claim C4 (amended): the server performs no ownership validation: the
registry state reached by `close-producer`, `resume-consumer`,
`pause-consumer` and `connect-transport` depends only on the resource id in
the payload and never on the issuing peer, and `close-producer` always
gives the issuer the `producer-closed` success reply, so an event naming a
resource owned by a different peer mutates it exactly as the owner's event
would. -/
theorem mutating_events_ignore_issuer (st : RouterState) (sio : SioState)
    (s1 s2 pid rid cid tid : String) :
    (closeProducerH st sio s1 pid rid).st = (closeProducerH st sio s2 pid rid).st ∧
    (resumeConsumerH st sio s1 cid).st = (resumeConsumerH st sio s2 cid).st ∧
    (pauseConsumerH st sio s1 cid).st = (pauseConsumerH st sio s2 cid).st ∧
    (connectTransportH st sio s1 tid).st = (connectTransportH st sio s2 tid).st ∧
    OutEvent.producerClosedReply s1 pid ∈ (closeProducerH st sio s1 pid rid).out := by
  refine ⟨rfl, ?_, ?_, ?_, ?_⟩
  · unfold resumeConsumerH
    cases resumeConsumer st cid <;> rfl
  · unfold pauseConsumerH
    cases pauseConsumer st cid <;> rfl
  · unfold connectTransportH
    cases connectTransport st tid <;> rfl
  · unfold closeProducerH
    simp only
    exact List.mem_append_right _ (List.mem_singleton.mpr rfl)

def stC4 : RouterState :=
  { transports := []
    producers := [("prodA", { peerId := "p1", roomId := "A", kind := "video" })]
    consumers := [("c1", { peerId := "p3", roomId := "A", producerId := "prodA",
                           paused := true })]
    rooms := [("A", { peers := ["p1"] })]
    routers := ["A"] }

def sioC4 : SioState := [("video-A", ["p1", "p2", "p3"])]

/-- Counterexample to claim C4 as stated: producer `prodA` is owned by `p1`,
yet a `close-producer` issued by the different peer `p2` succeeds — the
producer (and its consumer) is removed, `p2` receives the success reply and
no error event is emitted. -/
theorem non_owner_close_cex :
    lookupA (closeProducerH stC4 sioC4 "p2" "prodA" "A").st.producers "prodA" =
      none ∧
    lookupA (closeProducerH stC4 sioC4 "p2" "prodA" "A").st.consumers "c1" =
      none ∧
    OutEvent.producerClosedReply "p2" "prodA" ∈
      (closeProducerH stC4 sioC4 "p2" "prodA" "A").out ∧
    errorCodes (closeProducerH stC4 sioC4 "p2" "prodA" "A").out = [] := by
  decide

/-! ## Claim C5 -/

/-- `connectTransport` on a not-yet-connected transport succeeds and marks
the stored handle connected. -/
theorem connectTransport_not_connected (st : RouterState) (tid : String)
    (t : TransportRec) (h : lookupA st.transports tid = some t)
    (hconn : t.engineConnected = false) :
    connectTransport st tid = Except.ok { st with
      transports := setA st.transports tid { t with engineConnected := true } } := by
  obtain ⟨tp, tr, td, tec⟩ := t
  replace hconn : tec = false := hconn
  subst hconn
  unfold connectTransport
  rw [h]
  rfl

/-- `connectTransport` on an already-connected transport is rejected by the
engine handle. -/
theorem connectTransport_already (st : RouterState) (tid : String)
    (t : TransportRec) (h : lookupA st.transports tid = some t)
    (hconn : t.engineConnected = true) :
    connectTransport st tid = Except.error "connect already called" := by
  obtain ⟨tp, tr, td, tec⟩ := t
  replace hconn : tec = true := hconn
  subst hconn
  unfold connectTransport
  rw [h]
  rfl

/-- Claim C5 (amended): the first `connect-transport` on an existing
transport replies `transport-connected {transportId}` and marks the handle
connected; any subsequent `connect-transport` for the same transport id is
rejected by the engine and surfaced as `transport-error` with the fixed
error string `Failed to connect transport` (engine message in `details`),
never as a machine code `already-connected`, and no state change occurs. -/
theorem connect_transport_idempotence (st : RouterState) (sio : SioState)
    (s tid : String) (t : TransportRec)
    (h : lookupA st.transports tid = some t) :
    (t.engineConnected = false →
      (connectTransportH st sio s tid).out = [OutEvent.transportConnected s tid] ∧
      lookupA (connectTransportH st sio s tid).st.transports tid =
        some { t with engineConnected := true }) ∧
    (t.engineConnected = true →
      (connectTransportH st sio s tid).st = st ∧
      (connectTransportH st sio s tid).out =
        [OutEvent.transportError s "Failed to connect transport"
          "connect already called"] ∧
      errorCodes (connectTransportH st sio s tid).out =
        ["Failed to connect transport"]) := by
  constructor
  · intro hconn
    unfold connectTransportH
    rw [connectTransport_not_connected st tid t h hconn]
    exact ⟨rfl, lookupA_setA_self _ _ _⟩
  · intro hconn
    unfold connectTransportH
    rw [connectTransport_already st tid t h hconn]
    exact ⟨rfl, rfl, rfl⟩

def stC5 : RouterState :=
  { transports := [("t1", { peerId := "p1", roomId := "A", direction := "send",
                            engineConnected := false })]
    producers := []
    consumers := []
    rooms := [("A", { peers := [] })]
    routers := ["A"] }

def sioC5 : SioState := [("video-A", ["p1"])]

/-- Witness for C5 at a concrete state: the first `connect-transport` on the
fresh transport `t1` replies `transport-connected`, and the second one on
the resulting state replies `transport-error` with error string
`Failed to connect transport`, leaving the state unchanged. -/
theorem connect_transport_idempotence_witness :
    (connectTransportH stC5 sioC5 "p1" "t1").out =
      [OutEvent.transportConnected "p1" "t1"] ∧
    (connectTransportH (connectTransportH stC5 sioC5 "p1" "t1").st sioC5
        "p1" "t1").out =
      [OutEvent.transportError "p1" "Failed to connect transport"
        "connect already called"] :=
  ⟨((connect_transport_idempotence stC5 sioC5 "p1" "t1"
      { peerId := "p1", roomId := "A", direction := "send",
        engineConnected := false } (by decide)).1 (by decide)).1,
   (((connect_transport_idempotence (connectTransportH stC5 sioC5 "p1" "t1").st
      sioC5 "p1" "t1"
      { peerId := "p1", roomId := "A", direction := "send",
        engineConnected := true } (by decide)).2 (by decide)).2).1⟩

/-- Counterexample to claim C5 as stated: the second `connect-transport` for
`t1` does not return the machine error code `already-connected`; the only
error code it emits is the generic string `Failed to connect transport`. -/
theorem connect_transport_already_connected_cex :
    errorCodes (connectTransportH (connectTransportH stC5 sioC5 "p1" "t1").st
      sioC5 "p1" "t1").out = ["Failed to connect transport"] ∧
    OutEvent.transportConnected "p1" "t1" ∉
      (connectTransportH (connectTransportH stC5 sioC5 "p1" "t1").st
        sioC5 "p1" "t1").out := by
  decide

/-! ## Claims C6 and C8 -/

/-- `createProducer` on an existing transport propagates an engine rejection
unchanged. -/
theorem createProducer_error_eq (st : RouterState) (tid kind emsg : String)
    (t : TransportRec) (h : lookupA st.transports tid = some t) :
    createProducer st tid kind (Except.error emsg) = Except.error emsg := by
  unfold createProducer
  rw [h]

/-- The pieces of a successful `createProducer` on an existing transport:
the transports table is untouched, the new producer is recorded under the
transport's peer and room, and the emitted `newProducer` payload carries the
transport's peer and room. -/
theorem createProducer_ok_parts (st : RouterState) (tid kind nid : String)
    (t : TransportRec) (h : lookupA st.transports tid = some t) :
    ∃ r, createProducer st tid kind (Except.ok nid) = Except.ok r ∧
      r.st.transports = st.transports ∧
      r.st.producers = setA st.producers nid
        { peerId := t.peerId, roomId := t.roomId, kind := kind } ∧
      r.newId = nid ∧ r.emitPeerId = t.peerId ∧ r.emitRoomId = t.roomId := by
  unfold createProducer
  rw [h]
  exact ⟨_, rfl, rfl, rfl, rfl, rfl, rfl⟩

/-- On a successful engine `produce` the create-producer handler keeps the
transports table, records the producer under the transport's peer and room,
and replies `producer-created {id, kind}` to the issuer. -/
theorem createProducerH_ok (st : RouterState) (sio : SioState)
    (listeners : List String) (s tid kind rid nid : String) (t : TransportRec)
    (h : lookupA st.transports tid = some t) :
    (createProducerH st sio listeners s tid kind rid (Except.ok nid)).st.transports
        = st.transports ∧
    (createProducerH st sio listeners s tid kind rid (Except.ok nid)).st.producers
        = setA st.producers nid
            { peerId := t.peerId, roomId := t.roomId, kind := kind } ∧
    OutEvent.producerCreated s nid kind ∈
      (createProducerH st sio listeners s tid kind rid (Except.ok nid)).out := by
  obtain ⟨r, hr, htr, hpr, hnid, hpeer, hroom⟩ :=
    createProducer_ok_parts st tid kind nid t h
  unfold createProducerH
  rw [hr]
  refine ⟨htr, hpr, ?_⟩
  show OutEvent.producerCreated s nid kind ∈
    concatMapL (fun l => fanOut sio l ("video-" ++ r.emitRoomId)
      (fun m => OutEvent.newProducerAvailable m r.emitPeerId r.newId kind))
      listeners ++
    [OutEvent.producerCreated s r.newId kind] ++
    fanOut sio s ("video-" ++ rid)
      (fun m => OutEvent.newProducerAvailable m s r.newId kind)
  rw [hnid]
  apply List.mem_append_left
  exact List.mem_append_right _ (List.mem_singleton.mpr rfl)

/-- Claim C6 (amended): `create-producer` performs no connect-state check
and the protocol has no `not-connected` machine code: on a transport whose
connect handshake has not completed the request still goes to the engine;
if the engine rejects it, the handler emits exactly one `producer-error`
whose error field is the fixed string `Failed to create producer` and the
state is unchanged with no fan-out; if the engine accepts it, the producer
is inserted and the success reply is emitted. -/
theorem create_producer_unconnected (st : RouterState) (sio : SioState)
    (listeners : List String) (s tid kind rid nid emsg : String)
    (t : TransportRec) (h : lookupA st.transports tid = some t)
    (_hconn : t.engineConnected = false) :
    ((createProducerH st sio listeners s tid kind rid (Except.error emsg)).st = st ∧
     (createProducerH st sio listeners s tid kind rid (Except.error emsg)).out =
       [OutEvent.producerError s "Failed to create producer" emsg]) ∧
    (lookupA (createProducerH st sio listeners s tid kind rid
        (Except.ok nid)).st.producers nid =
      some { peerId := t.peerId, roomId := t.roomId, kind := kind } ∧
     OutEvent.producerCreated s nid kind ∈
       (createProducerH st sio listeners s tid kind rid (Except.ok nid)).out) := by
  refine ⟨⟨?_, ?_⟩, ?_, ?_⟩
  · unfold createProducerH
    rw [createProducer_error_eq st tid kind emsg t h]
  · unfold createProducerH
    rw [createProducer_error_eq st tid kind emsg t h]
  · rw [(createProducerH_ok st sio listeners s tid kind rid nid t h).2.1]
    exact lookupA_setA_self _ _ _
  · exact (createProducerH_ok st sio listeners s tid kind rid nid t h).2.2

def stC6 : RouterState :=
  { transports := [("t1", { peerId := "p1", roomId := "A", direction := "send",
                            engineConnected := false })]
    producers := []
    consumers := []
    rooms := [("A", { peers := [] })]
    routers := ["A"] }

def sioC6 : SioState := [("video-A", ["p1", "p2"])]

/-- Witness for C6 at a concrete state with the unconnected transport `t1`:
an engine rejection yields exactly the generic `producer-error` with the
state unchanged, and an engine acceptance records the producer. -/
theorem create_producer_unconnected_witness :
    (createProducerH stC6 sioC6 [] "p1" "t1" "video" "A"
        (Except.error "produce rejected")).out =
      [OutEvent.producerError "p1" "Failed to create producer"
        "produce rejected"] ∧
    lookupA (createProducerH stC6 sioC6 [] "p1" "t1" "video" "A"
        (Except.ok "prodX")).st.producers "prodX" =
      some { peerId := "p1", roomId := "A", kind := "video" } :=
  ⟨((create_producer_unconnected stC6 sioC6 [] "p1" "t1" "video" "A" "prodX"
      "produce rejected"
      { peerId := "p1", roomId := "A", direction := "send",
        engineConnected := false } (by decide) (by decide)).1).2,
   ((create_producer_unconnected stC6 sioC6 [] "p1" "t1" "video" "A" "prodX"
      "produce rejected"
      { peerId := "p1", roomId := "A", direction := "send",
        engineConnected := false } (by decide) (by decide)).2).1⟩

/-- Counterexample to claim C6 as stated: on the never-connected transport
`t1`, a `create-producer` accepted by the engine emits no error at all —
it inserts the producer and fans out `new-producer-available` to `p2` — and
a `create-producer` rejected by the engine carries the error string
`Failed to create producer`, not the machine code `not-connected`. -/
theorem create_producer_not_connected_cex :
    errorCodes (createProducerH stC6 sioC6 [] "p1" "t1" "video" "A"
      (Except.ok "prodX")).out = [] ∧
    countNewProdAvail (createProducerH stC6 sioC6 [] "p1" "t1" "video" "A"
      (Except.ok "prodX")).out "p2" = 1 ∧
    lookupA (createProducerH stC6 sioC6 [] "p1" "t1" "video" "A"
      (Except.ok "prodX")).st.producers "prodX" =
      some { peerId := "p1", roomId := "A", kind := "video" } ∧
    errorCodes (createProducerH stC6 sioC6 [] "p1" "t1" "video" "A"
      (Except.error "produce rejected")).out = ["Failed to create producer"] := by
  decide

/-- Claim C8 (amended): `createProducer` has no per-(peer, kind) uniqueness
check: a second successful `create-producer` of the same kind by the same
peer inserts a second producer record — both records are live afterwards —
and the second call replies `producer-created` instead of a
`duplicate-kind` error. -/
theorem create_producer_duplicate_kind (st : RouterState) (sio : SioState)
    (l1 l2 : List String) (s tid kind rid id1 id2 : String) (t : TransportRec)
    (h : lookupA st.transports tid = some t) (hne : id1 ≠ id2) :
    lookupA (createProducerH (createProducerH st sio l1 s tid kind rid
        (Except.ok id1)).st sio l2 s tid kind rid
        (Except.ok id2)).st.producers id1 =
      some { peerId := t.peerId, roomId := t.roomId, kind := kind } ∧
    lookupA (createProducerH (createProducerH st sio l1 s tid kind rid
        (Except.ok id1)).st sio l2 s tid kind rid
        (Except.ok id2)).st.producers id2 =
      some { peerId := t.peerId, roomId := t.roomId, kind := kind } ∧
    OutEvent.producerCreated s id2 kind ∈
      (createProducerH (createProducerH st sio l1 s tid kind rid
        (Except.ok id1)).st sio l2 s tid kind rid (Except.ok id2)).out := by
  have h1 := createProducerH_ok st sio l1 s tid kind rid id1 t h
  have h2t : lookupA (createProducerH st sio l1 s tid kind rid
      (Except.ok id1)).st.transports tid = some t := by
    rw [h1.1]
    exact h
  have h2 := createProducerH_ok (createProducerH st sio l1 s tid kind rid
    (Except.ok id1)).st sio l2 s tid kind rid id2 t h2t
  refine ⟨?_, ?_, h2.2.2⟩
  · rw [h2.2.1, lookupA_setA_ne _ _ _ _ hne, h1.2.1]
    exact lookupA_setA_self _ _ _
  · rw [h2.2.1]
    exact lookupA_setA_self _ _ _

def stC8 : RouterState :=
  { transports := [("t1", { peerId := "p1", roomId := "A", direction := "send",
                            engineConnected := true })]
    producers := []
    consumers := []
    rooms := [("A", { peers := [] })]
    routers := ["A"] }

def sioC8 : SioState := [("video-A", ["p1"])]

/-- Witness for C8 at a concrete state: after two successful audio
`create-producer` calls by `p1` on `t1`, both producer records `pa` and
`pb` are live for the pair (`p1`, audio). -/
theorem create_producer_duplicate_kind_witness :
    lookupA (createProducerH (createProducerH stC8 sioC8 [] "p1" "t1" "audio"
        "A" (Except.ok "pa")).st sioC8 [] "p1" "t1" "audio" "A"
        (Except.ok "pb")).st.producers "pa" =
      some { peerId := "p1", roomId := "A", kind := "audio" } ∧
    lookupA (createProducerH (createProducerH stC8 sioC8 [] "p1" "t1" "audio"
        "A" (Except.ok "pa")).st sioC8 [] "p1" "t1" "audio" "A"
        (Except.ok "pb")).st.producers "pb" =
      some { peerId := "p1", roomId := "A", kind := "audio" } :=
  ⟨(create_producer_duplicate_kind stC8 sioC8 [] [] "p1" "t1" "audio" "A"
      "pa" "pb"
      { peerId := "p1", roomId := "A", direction := "send",
        engineConnected := true } (by decide) (by decide)).1,
   (create_producer_duplicate_kind stC8 sioC8 [] [] "p1" "t1" "audio" "A"
      "pa" "pb"
      { peerId := "p1", roomId := "A", direction := "send",
        engineConnected := true } (by decide) (by decide)).2.1⟩

/-- Counterexample to claim C8 as stated: a second audio `create-producer`
by `p1` is not rejected — no error event is emitted, the reply is
`producer-created`, and afterwards the pair (`p1`, audio) holds the two
live producers `pa` and `pb` at once. -/
theorem duplicate_kind_cex :
    errorCodes (createProducerH (createProducerH stC8 sioC8 [] "p1" "t1"
      "audio" "A" (Except.ok "pa")).st sioC8 [] "p1" "t1" "audio" "A"
      (Except.ok "pb")).out = [] ∧
    OutEvent.producerCreated "p1" "pb" "audio" ∈
      (createProducerH (createProducerH stC8 sioC8 [] "p1" "t1" "audio" "A"
        (Except.ok "pa")).st sioC8 [] "p1" "t1" "audio" "A"
        (Except.ok "pb")).out ∧
    lookupA (createProducerH (createProducerH stC8 sioC8 [] "p1" "t1" "audio"
        "A" (Except.ok "pa")).st sioC8 [] "p1" "t1" "audio" "A"
        (Except.ok "pb")).st.producers "pa" =
      some { peerId := "p1", roomId := "A", kind := "audio" } ∧
    lookupA (createProducerH (createProducerH stC8 sioC8 [] "p1" "t1" "audio"
        "A" (Except.ok "pa")).st sioC8 [] "p1" "t1" "audio" "A"
        (Except.ok "pb")).st.producers "pb" =
      some { peerId := "p1", roomId := "A", kind := "audio" } := by
  decide

/-! ## Witnesses for the universally quantified claim theorems -/

/-- Witness for the amended C1 at a concrete state: `p2`'s producer table
entries are gone after its leave and the remaining member `p1` receives
`peer-left {p2}`. -/
theorem leave_removes_producers_no_fanout_witness :
    (leaveVideoRoom stC1 sioC1 "p2" "A").st.producers.filter
      (fun p => p.2.peerId == "p2" && p.2.roomId == "A") = [] ∧
    OutEvent.peerLeft "p1" "p2" ∈ (leaveVideoRoom stC1 sioC1 "p2" "A").out :=
  ⟨(leave_removes_producers_no_fanout stC1 sioC1 "p2" "A").1,
   (leave_removes_producers_no_fanout stC1 sioC1 "p2" "A").2.2 "p1"
     (by decide) (by decide)⟩

/-- Witness for the amended C3 at a concrete state. -/
theorem join_does_not_add_member_witness :
    (memberOf (joinVideoRoom stC3 [] "p1" "A").st "A" "p1" = false ∨
      memberOf (joinVideoRoom stC3 [] "p1" "A").st "A" "p1" =
        memberOf stC3 "A" "p1") ∧
    OutEvent.videoRoomJoined "p1"
        (getRoomProducers (getOrCreateRouter stC3 "A") "A" "p1") ∈
      (joinVideoRoom stC3 [] "p1" "A").out :=
  join_does_not_add_member stC3 [] "p1" "A" "A"

/-- Witness for the amended C4 at a concrete state: the state after
`close-producer` is the same whether `p1` (the owner) or `p2` issues it. -/
theorem mutating_events_ignore_issuer_witness :
    (closeProducerH stC4 sioC4 "p1" "prodA" "A").st =
      (closeProducerH stC4 sioC4 "p2" "prodA" "A").st ∧
    OutEvent.producerClosedReply "p1" "prodA" ∈
      (closeProducerH stC4 sioC4 "p1" "prodA" "A").out :=
  ⟨(mutating_events_ignore_issuer stC4 sioC4 "p1" "p2" "prodA" "A" "c1" "t1").1,
   (mutating_events_ignore_issuer stC4 sioC4 "p1" "p2" "prodA" "A" "c1"
     "t1").2.2.2.2⟩

/-- Witness for the amended C7 at a concrete state. -/
theorem leave_always_succeeds_witness :
    OutEvent.videoRoomLeft "p2" "A" ∈ (leaveVideoRoom stC7 sioC7 "p2" "A").out ∧
    errorCodes (leaveVideoRoom stC7 sioC7 "p2" "A").out = [] :=
  leave_always_succeeds stC7 sioC7 "p2" "A"
